import Mathlib

/-!
Verification of the modelfusion invocation/streaming core against its
natural-language specification.

The development shallowly embeds the code of the repository:
pure TypeScript functions become Lean functions, fallible code returns
`Except`, and the streaming state machine becomes explicit state passing.
Components whose implementation files are absent from the source tree
(the delta stream assembler, the structured-generation engine and the
tool-invocation engine; only their documentation is present) are modelled
from the specification, as marked in their doc comments.
-/

namespace ModelFusion

/-! ## JSON values and a fuel-based JSON parser

Tool-call argument buffers and structured-generation outputs are raw text
that the system parses as JSON.  We embed a JSON value type and an
executable parser (integer numerals; strings with the common escapes). -/

inductive Json where
  | null
  | bool (b : Bool)
  | num (n : Int)
  | str (s : String)
  | arr (elems : List Json)
  | obj (fields : List (String × Json))

def isJsonWs (c : Char) : Bool :=
  c = ' ' || c = '\n' || c = '\t' || c = '\r'

def skipWs : List Char → List Char
  | [] => []
  | c :: cs => if isJsonWs c then skipWs cs else c :: cs

def escChar (c : Char) : Option Char :=
  if c = 'n' then some '\n'
  else if c = 't' then some '\t'
  else if c = 'r' then some '\r'
  else if c = '"' || c = '\\' || c = '/' then some c
  else none

def parseStringBody : List Char → Option (String × List Char)
  | [] => none
  | '"' :: rest => some ("", rest)
  | '\\' :: c :: rest =>
    (escChar c).bind fun d =>
      (parseStringBody rest).map fun p => (String.mk (d :: p.1.data), p.2)
  | c :: rest =>
    if c = '"' ∨ c = '\\' then none
    else (parseStringBody rest).map fun p => (String.mk (c :: p.1.data), p.2)

def takeDigits : List Char → (List Char × List Char)
  | [] => ([], [])
  | c :: cs =>
    if c.isDigit then
      let p := takeDigits cs
      (c :: p.1, p.2)
    else ([], c :: cs)

def digitsToNat (acc : Nat) : List Char → Nat
  | [] => acc
  | d :: ds => digitsToNat (10 * acc + (d.toNat - Char.toNat '0')) ds

def parseNum : List Char → Option (Int × List Char)
  | '-' :: cs =>
    match takeDigits cs with
    | ([], _) => none
    | (ds, rest) => some (-(digitsToNat 0 ds : Int), rest)
  | cs =>
    match takeDigits cs with
    | ([], _) => none
    | (ds, rest) => some ((digitsToNat 0 ds : Int), rest)

mutual

def parseVal : Nat → List Char → Option (Json × List Char)
  | 0, _ => none
  | fuel + 1, cs =>
    match skipWs cs with
    | 'n' :: 'u' :: 'l' :: 'l' :: rest => some (.null, rest)
    | 't' :: 'r' :: 'u' :: 'e' :: rest => some (.bool true, rest)
    | 'f' :: 'a' :: 'l' :: 's' :: 'e' :: rest => some (.bool false, rest)
    | '"' :: rest => (parseStringBody rest).map fun p => (.str p.1, p.2)
    | '[' :: rest =>
      (match skipWs rest with
       | ']' :: rest2 => some (.arr [], rest2)
       | rest2 => (parseElems fuel rest2).map fun p => (.arr p.1, p.2))
    | '{' :: rest =>
      (match skipWs rest with
       | '}' :: rest2 => some (.obj [], rest2)
       | rest2 => (parseMembers fuel rest2).map fun p => (.obj p.1, p.2))
    | cs2 => (parseNum cs2).map fun p => (.num p.1, p.2)

def parseElems : Nat → List Char → Option (List Json × List Char)
  | 0, _ => none
  | fuel + 1, cs =>
    (parseVal fuel cs).bind fun p =>
      match skipWs p.2 with
      | ',' :: rest => (parseElems fuel rest).map fun q => (p.1 :: q.1, q.2)
      | ']' :: rest => some ([p.1], rest)
      | _ => none

def parseMembers : Nat → List Char → Option (List (String × Json) × List Char)
  | 0, _ => none
  | fuel + 1, cs =>
    match skipWs cs with
    | '"' :: rest =>
      (parseStringBody rest).bind fun kp =>
        match skipWs kp.2 with
        | ':' :: rest2 =>
          (parseVal fuel rest2).bind fun vp =>
            (match skipWs vp.2 with
             | ',' :: rest3 =>
               (parseMembers fuel rest3).map fun q => ((kp.1, vp.1) :: q.1, q.2)
             | '}' :: rest3 => some ([(kp.1, vp.1)], rest3)
             | _ => none)
        | _ => none
    | _ => none

end

def Json.parse (s : String) : Option Json :=
  match parseVal (s.length + 1) s.data with
  | some (v, rest) => if skipWs rest = [] then some v else none
  | none => none

theorem json_parse_empty : Json.parse "" = none := rfl

/-! ## Schema validator (`ZodSchema.validate`, src/unnamed/part_001)

`ZodSchema.validate` returns the tagged union produced by the underlying
schema library's `safeParse`:
`\x7b success: true; data \x7d | \x7b success: false; error \x7d`.
We embed the tagged union as `ValidationOutcome` and the wrapped schema
library call as a total function into that union. -/

inductive ValidationOutcome (α : Type) where
  | success (data : α)
  | failure (error : String)

def ValidationOutcome.isFailure : ValidationOutcome α → Bool
  | .failure _ => true
  | .success _ => false

def ValidationOutcome.errorText : ValidationOutcome α → String
  | .failure e => e
  | .success _ => ""

structure ZodSchema (α : Type) where
  safeParse : Json → ValidationOutcome α

/-- `ZodSchema.validate` delegates to the wrapped schema's `safeParse`
(src/unnamed/part_001, lines 12-16). -/
def ZodSchema.validate (schema : ZodSchema α) (data : Json) : ValidationOutcome α :=
  schema.safeParse data

/-! A concrete schema: the calculator tool's input schema from the Tools
documentation (src/unnamed/part_000): an object with numeric fields `a`
and `b` and an `operator` drawn from the enumeration +, -, *, /. -/

inductive CalcOp where
  | add
  | sub
  | mul
  | div
deriving DecidableEq

structure CalcArgs where
  a : Int
  b : Int
  operator : CalcOp
deriving DecidableEq

def lookupField : List (String × Json) → String → Option Json
  | [], _ => none
  | (k, v) :: rest, key => if k = key then some v else lookupField rest key

def asNum : Json → Option Int
  | .num n => some n
  | _ => none

def asCalcOp : Json → Option CalcOp
  | .str "+" => some .add
  | .str "-" => some .sub
  | .str "*" => some .mul
  | .str "/" => some .div
  | _ => none

def calcSafeParse (data : Json) : ValidationOutcome CalcArgs :=
  match data with
  | .obj fields =>
    match (lookupField fields "a").bind asNum,
          (lookupField fields "b").bind asNum,
          (lookupField fields "operator").bind asCalcOp with
    | some a, some b, some op => .success { a := a, b := b, operator := op }
    | _, _, _ => .failure "invalid calculator arguments"
  | _ => .failure "expected an object"

def calcSchema : ZodSchema CalcArgs :=
  { safeParse := calcSafeParse }

/-! ## Prompt formatter (src/unnamed/part_001)

Provider messages, instruction prompts and chat prompts, with the two
mapping functions `mapInstructionPromptToOpenAIChatFormat` and
`mapChatPromptToOpenAIChatFormat` translated from the source. -/

structure OpenAIChatMessage where
  role : String
  content : String
deriving DecidableEq

structure InstructionPrompt where
  system : Option String
  instruction : String
  input : Option String

/-- Formats an instruction prompt as an OpenAI chat prompt
(src/unnamed/part_001, lines 33-64). -/
def mapInstructionPromptToOpenAIChatFormat (instruction : InstructionPrompt) :
    List OpenAIChatMessage :=
  let messages : List OpenAIChatMessage := []
  let messages := match instruction.system with
    | some s => messages ++ [{ role := "system", content := s }]
    | none => messages
  let messages := messages ++ [{ role := "user", content := instruction.instruction }]
  let messages := match instruction.input with
    | some i => messages ++ [{ role := "user", content := i }]
    | none => messages
  messages

/-- A chat prompt turn: exactly one of system, user or ai
(the `\x7bsystem\x7d` / `\x7buser\x7d` / `\x7bai\x7d` object shapes). -/
inductive ChatTurn where
  | system (content : String)
  | user (content : String)
  | ai (content : String)
deriving DecidableEq

abbrev ChatPrompt := List ChatTurn

inductive FormatError where
  | promptStructure (message : String)
  | unsupportedMessage (message : String)
deriving DecidableEq

def isSystemTurn : ChatTurn → Bool
  | .system _ => true
  | _ => false

/-- Modelled from the spec: `validateChatPrompt` (imported by the formatter
in src/unnamed/part_001 but its source file is not under src/).  Per the
spec, chat mapping "fails with a `PromptStructureError` if a system turn
appears anywhere but first, or if any turn is not exactly one of
\x7bsystem, user, assistant\x7d" (the second case is unrepresentable in the
embedding, where every turn is one of the three). -/
def validateChatPrompt (chatPrompt : ChatPrompt) : Except FormatError Unit :=
  match chatPrompt with
  | [] => .ok ()
  | _ :: rest =>
    if rest.any isSystemTurn then
      .error (.promptStructure "system message must be the first message")
    else
      .ok ()

/-- The per-turn loop body of `mapChatPromptToOpenAIChatFormat`
(src/unnamed/part_001, lines 79-118): a system turn is mapped only at
index 0; otherwise the turn falls through to the unsupported-message
throw.  User turns map to role `user`, ai turns to role `assistant`. -/
def chatFormatLoop : Nat → ChatPrompt → Except FormatError (List OpenAIChatMessage)
  | _, [] => .ok []
  | i, message :: rest =>
    match message with
    | .system s =>
      if i = 0 then
        (chatFormatLoop (i + 1) rest).map
          (fun ms => { role := "system", content := s } :: ms)
      else
        .error (.unsupportedMessage s)
    | .user u =>
      (chatFormatLoop (i + 1) rest).map
        (fun ms => { role := "user", content := u } :: ms)
    | .ai a =>
      (chatFormatLoop (i + 1) rest).map
        (fun ms => { role := "assistant", content := a } :: ms)

/-- Formats a chat prompt as an OpenAI chat prompt
(src/unnamed/part_001, lines 69-124): validate first, then map turns. -/
def mapChatPromptToOpenAIChatFormat (chatPrompt : ChatPrompt) :
    Except FormatError (List OpenAIChatMessage) :=
  (validateChatPrompt chatPrompt).bind fun _ => chatFormatLoop 0 chatPrompt

/-- A chat prompt is valid when a system turn, if present, is only the
first element (spec section 3: "a system turn, if present, must be the
first element"). -/
def validChatPrompt : ChatPrompt → Bool
  | [] => true
  | _ :: rest => !rest.any isSystemTurn

/-- The 1:1 per-turn role translation claimed by the spec. -/
def turnToMessage : ChatTurn → OpenAIChatMessage
  | .system s => { role := "system", content := s }
  | .user u => { role := "user", content := u }
  | .ai a => { role := "assistant", content := a }

/-! ## Delta stream assembler

Modelled from the spec (section 4.3): the implementation file is not under
src/ (only streaming examples are).  One assembler instance per call;
state is an accumulator keyed by fragment index, holding per index a text
buffer and in-progress tool calls keyed by tool-call id. -/

inductive FragmentPayload where
  | textDelta (content : String)
  | toolCallDelta (id : String) (nameDelta : Option String) (argsDelta : Option String)

structure Fragment where
  index : Nat
  payload : FragmentPayload

inductive StreamProtocolError where
  | duplicateName (id : String)
  | argsBeforeName (id : String)
deriving DecidableEq

structure ToolCallAcc where
  name : Option String
  args : String

structure ChoiceAcc where
  text : Option String
  toolCalls : String → Option ToolCallAcc

def AssemblerState : Type := Nat → Option ChoiceAcc

def emptyChoice : ChoiceAcc :=
  { text := none, toolCalls := fun _ => none }

def emptyState : AssemblerState := fun _ => none

def updateMap {ν : Type} [DecidableEq κ] (m : κ → Option ν) (k : κ) (v : ν) :
    κ → Option ν :=
  fun k2 => if k2 = k then some v else m k2

/-- Modelled from the spec: append a fragment's argument text to the
accumulator, in arrival order (append-only); argument text for an
accumulator with no name recorded is an ordering violation. -/
def applyArgsDelta (id : String) (argsDelta : Option String) (acc : ToolCallAcc) :
    Except StreamProtocolError ToolCallAcc :=
  match argsDelta with
  | none => .ok acc
  | some a =>
    match acc.name with
    | none => .error (.argsBeforeName id)
    | some _ => .ok { acc with args := acc.args ++ a }

/-- Modelled from the spec: apply one tool-call delta to that tool-call
id's accumulator.  "fails with a `ProtocolError` if a name arrives after
that tool-call id already has a name set (duplicate-name violation) or if
argument text arrives for a tool-call id with no name yet recorded AND the
fragment provides no name (ordering violation)". -/
def applyToolDelta (id : String) (nameDelta argsDelta : Option String)
    (current : Option ToolCallAcc) : Except StreamProtocolError ToolCallAcc :=
  match nameDelta with
  | some n =>
    match (current.getD { name := none, args := "" }).name with
    | some _ => .error (.duplicateName id)
    | none =>
      applyArgsDelta id argsDelta
        { current.getD { name := none, args := "" } with name := some n }
  | none => applyArgsDelta id argsDelta (current.getD { name := none, args := "" })

/-- Modelled from the spec: the `Open`-state transition on receiving one
fragment.  Look up (or create) the accumulator for the fragment's index;
text deltas append to the text buffer (initialized to empty on first
text); tool-call deltas go through `applyToolDelta`. -/
def processFragment (st : AssemblerState) (f : Fragment) :
    Except StreamProtocolError AssemblerState :=
  let choice := (st f.index).getD emptyChoice
  match f.payload with
  | .textDelta content =>
    .ok (updateMap st f.index
      { choice with text := some (choice.text.getD "" ++ content) })
  | .toolCallDelta id nameDelta argsDelta =>
    (applyToolDelta id nameDelta argsDelta (choice.toolCalls id)).map fun acc =>
      updateMap st f.index
        { choice with toolCalls := updateMap choice.toolCalls id acc }

def assembleFrom (st : AssemblerState) : List Fragment → Except StreamProtocolError AssemblerState
  | [] => .ok st
  | f :: fs => (processFragment st f).bind fun st2 => assembleFrom st2 fs

/-- Run the assembler over a whole fragment sequence from the initial
(empty) state; an error models `ProtocolError` tearing the stream down. -/
def assemble (fs : List Fragment) : Except StreamProtocolError AssemblerState :=
  assembleFrom emptyState fs

/-! Closing the stream: the final Assembled Response snapshot.  Every tool
call's argument buffer is parsed as JSON; a parse failure is reported in
the snapshot (carrying the offending buffer), not silently dropped. -/

structure FinalToolCall where
  name : Option String
  parsedArgs : Except String Json

structure FinalChoice where
  text : String
  toolCalls : String → Option FinalToolCall

def AssembledResponse : Type := Nat → Option FinalChoice

def finalizeToolCall (acc : ToolCallAcc) : FinalToolCall :=
  { name := acc.name,
    parsedArgs :=
      match Json.parse acc.args with
      | some v => .ok v
      | none => .error acc.args }

def finalizeChoice (c : ChoiceAcc) : FinalChoice :=
  { text := c.text.getD "",
    toolCalls := fun id => (c.toolCalls id).map finalizeToolCall }

/-- The Assembled Response produced when the stream reaches `Closed`. -/
def closeStream (st : AssemblerState) : AssembledResponse :=
  fun i => (st i).map finalizeChoice

def respText (r : AssembledResponse) (i : Nat) : String :=
  match r i with
  | some c => c.text
  | none => ""

def respToolCall (r : AssembledResponse) (i : Nat) (id : String) : Option FinalToolCall :=
  match r i with
  | some c => c.toolCalls id
  | none => none

/-- The argument text this fragment contributes to tool call `(i, id)`. -/
def fragArgText (i : Nat) (id : String) (f : Fragment) : String :=
  if f.index = i then
    match f.payload with
    | .toolCallDelta id2 _ argsDelta => if id2 = id then argsDelta.getD "" else ""
    | _ => ""
  else ""

/-- Concatenation, in arrival order, of the argument text of all fragments
addressed to tool call `(i, id)`. -/
def argConcat (i : Nat) (id : String) : List Fragment → String
  | [] => ""
  | f :: fs => fragArgText i id f ++ argConcat i id fs

/-- The argument buffer a choice accumulator holds for tool-call `id`,
empty when that tool call has no accumulator. -/
def choiceArgs (c : ChoiceAcc) (id : String) : String :=
  match c.toolCalls id with
  | none => ""
  | some acc => acc.args

/-- The argument buffer currently held for tool call `(i, id)`, empty when
no accumulator exists. -/
def stateArgs (st : AssemblerState) (i : Nat) (id : String) : String :=
  choiceArgs ((st i).getD emptyChoice) id

/-- Parsed tool-call arguments exposed by an Assembled Response for tool
call `(i, id)`. -/
def respParsedArgs (r : AssembledResponse) (i : Nat) (id : String) :
    Option (Except String Json) :=
  (respToolCall r i id).map (fun tc => tc.parsedArgs)

/-! ## Structured generation engine

Modelled from the spec (section 4.4): the implementation file is not under
src/.  `modelOutput k` abstracts the model invocation of attempt `k`
(the retry prompt is a pure function of the previous attempt and error, so
the raw text of attempt `k` is a function of `k`). -/

structure StructureValidationError where
  valueText : String
  cause : String
deriving DecidableEq

/-- One attempt's outcome: parse the raw text as JSON — a parse failure is
treated identically to a schema failure — then validate. -/
def attemptOutcome (schema : ZodSchema α) (raw : String) : ValidationOutcome α :=
  match Json.parse raw with
  | none => .failure "could not parse the response as JSON"
  | some v => schema.validate v

/-- Modelled from the spec: the attempt loop of `generateStructure`.
Returns the result together with the number of attempts performed.  On a
failed attempt with attempts remaining, retry; exhausting the budget fails
with a `StructureValidationError` carrying the last raw output and the
last validation error. -/
def generateStructureGo (modelOutput : Nat → String) (schema : ZodSchema α) :
    Nat → Nat → Except StructureValidationError α × Nat
  | 0, attempt => (.error { valueText := "", cause := "maxAttempts must be at least 1" }, attempt)
  | remaining + 1, attempt =>
    let raw := modelOutput attempt
    match attemptOutcome schema raw with
    | .success value => (.ok value, attempt + 1)
    | .failure err =>
      if remaining = 0 then
        (.error { valueText := raw, cause := err }, attempt + 1)
      else
        generateStructureGo modelOutput schema remaining (attempt + 1)

/-- Modelled from the spec: `generateStructure(model, schema,
promptBuilder, maxAttempts)`. -/
def generateStructure (modelOutput : Nat → String) (schema : ZodSchema α)
    (maxAttempts : Nat) : Except StructureValidationError α :=
  (generateStructureGo modelOutput schema maxAttempts 0).1

/-- Number of model invocations performed by `generateStructure`
(retries = attempts - 1). -/
def generateStructureAttemptCount (modelOutput : Nat → String) (schema : ZodSchema α)
    (maxAttempts : Nat) : Nat :=
  (generateStructureGo modelOutput schema maxAttempts 0).2

/-! ## Tool invocation engine

Modelled from the spec (section 4.5) and the Tools documentation
(src/unnamed/part_000): the implementation files are not under src/.
A tool's action may fail; a thrown action error is `Except.error`. -/

structure Tool (α β : Type) where
  name : String
  description : String
  inputSchema : ZodSchema α
  execute : α → Except String β

/-- Tool Execution Result: tool name, validated parameters, execution
output (or the captured action error), and elapsed duration. -/
structure ToolExecutionResult (α β : Type) where
  tool : String
  parameters : α
  output : Except String β
  durationMs : Nat

/-- Modelled from the spec: build the Tool Execution Result for one
execution, capturing the action's output or thrown error together with
the elapsed time between the recorded start and finish instants. -/
def executeToolRun (tool : Tool α β) (parameters : α) (startMs finishMs : Nat) :
    ToolExecutionResult α β :=
  { tool := tool.name,
    parameters := parameters,
    output := tool.execute parameters,
    durationMs := finishMs - startMs }

/-- Modelled from the spec: `executeTool` as observed at the call
boundary.  The outer `Except` is what a call could throw across the
boundary; a thrown action error is captured inside the Tool Execution
Result and never escapes, so the call always returns `.ok`. -/
def executeTool (tool : Tool α β) (parameters : α) (startMs finishMs : Nat) :
    Except String (ToolExecutionResult α β) :=
  .ok (executeToolRun tool parameters startMs finishMs)

/-- The model's answer to the tool-selection request of
`useToolOrGenerateText`: either plain text, or a tool selected by name
with generated parameters.  Per the Tools documentation
(src/unnamed/part_000, lines 112-117) generated text is optional when a
tool was selected, so a selection may carry accompanying text. -/
inductive ModelToolResponse where
  | text (content : String)
  | toolCall (name : String) (parameters : Json) (content : Option String)

/-- The result shape of `useToolOrGenerateText` documented in
src/unnamed/part_000, lines 112-117: `tool`, `parameters` and `result`
are null iff text was generated; `text` is the generated text, optional
if a tool was selected. -/
structure ToolOrTextResult (α β : Type) where
  tool : Option String
  parameters : Option α
  result : Option (Except String β)
  text : Option String

inductive ToolCallError where
  | unknownTool (name : String)
  | invalidParameters (error : String)
deriving DecidableEq

/-- Modelled from the spec and the Tools documentation
(src/unnamed/part_000): `useToolOrGenerateText` given the model's
tool-selection response.  A selection naming a tool not in the provided
set fails with `UnknownToolError`; a selected tool's parameters are
validated and the tool executed as in `useTool`. -/
def useToolOrGenerateText (tools : List (Tool α β)) (response : ModelToolResponse)
    (startMs finishMs : Nat) : Except ToolCallError (ToolOrTextResult α β) :=
  match response with
  | .text content =>
    .ok { tool := none, parameters := none, result := none, text := some content }
  | .toolCall name rawParameters content =>
    match tools.find? (fun t => t.name = name) with
    | none => .error (.unknownTool name)
    | some tool =>
      match tool.inputSchema.validate rawParameters with
      | .failure e => .error (.invalidParameters e)
      | .success parameters =>
        .ok { tool := some tool.name,
              parameters := some parameters,
              result := some (executeToolRun tool parameters startMs finishMs).output,
              text := content }

/-- The calculator tool of the Tools documentation
(src/unnamed/part_000, lines 25-52). -/
def calcExecute (args : CalcArgs) : Except String Int :=
  match args.operator with
  | .add => .ok (args.a + args.b)
  | .sub => .ok (args.a - args.b)
  | .mul => .ok (args.a * args.b)
  | .div => .ok (args.a / args.b)

def calculator : Tool CalcArgs Int :=
  { name := "calculator",
    description := "Execute a calculation",
    inputSchema := calcSchema,
    execute := calcExecute }

/-! ## TikToken encoding table (src/src/model-provider/openai/TikTokenTokenizer.ts)

The model-identifier union `OpenAIChatBaseModelType |
OpenAICompletionBaseModelType | OpenAITextEmbeddingModelType` is declared
in files not under src/; its members are reconstructed from the arms of
the `getTiktokenBPE` switch, whose `never(model)` default witnesses that
the arms cover the whole union.  `none` models reaching the default
(throw) branch. -/

inductive OpenAIModel where
  | codeDavinci002
  | textDavinci002
  | textDavinci003
  | ada
  | babbage
  | curie
  | davinci
  | textAda001
  | textBabbage001
  | textCurie001
  | babbage002
  | davinci002
  | gpt35Turbo
  | gpt35Turbo0301
  | gpt35Turbo0613
  | gpt35Turbo16k
  | gpt35Turbo16k0613
  | gpt35TurboInstruct
  | gpt4
  | gpt4v0314
  | gpt4v0613
  | gpt4v32k
  | gpt4v32k0314
  | gpt4v32k0613
  | textEmbeddingAda002
deriving DecidableEq

inductive TiktokenEncoding where
  | p50kBase
  | r50kBase
  | cl100kBase
deriving DecidableEq

/-- The switch of `getTiktokenBPE`
(src/src/model-provider/openai/TikTokenTokenizer.ts, lines 61-106). -/
def getTiktokenBPE : OpenAIModel → Option TiktokenEncoding
  | .codeDavinci002 => some .p50kBase
  | .textDavinci002 => some .p50kBase
  | .textDavinci003 => some .p50kBase
  | .ada => some .r50kBase
  | .babbage => some .r50kBase
  | .curie => some .r50kBase
  | .davinci => some .r50kBase
  | .textAda001 => some .r50kBase
  | .textBabbage001 => some .r50kBase
  | .textCurie001 => some .r50kBase
  | .babbage002 => some .cl100kBase
  | .davinci002 => some .cl100kBase
  | .gpt35Turbo => some .cl100kBase
  | .gpt35Turbo0301 => some .cl100kBase
  | .gpt35Turbo0613 => some .cl100kBase
  | .gpt35Turbo16k => some .cl100kBase
  | .gpt35Turbo16k0613 => some .cl100kBase
  | .gpt35TurboInstruct => some .cl100kBase
  | .gpt4 => some .cl100kBase
  | .gpt4v0314 => some .cl100kBase
  | .gpt4v0613 => some .cl100kBase
  | .gpt4v32k => some .cl100kBase
  | .gpt4v32k0314 => some .cl100kBase
  | .gpt4v32k0613 => some .cl100kBase
  | .textEmbeddingAda002 => some .cl100kBase

/-- The claimed model-to-encoding grouping, written from the claim for
comparison with `getTiktokenBPE`: code-davinci-002 and
text-davinci-002/003 map to p50k_base; ada, babbage, curie, davinci and
the text-*-001 variants map to r50k_base; babbage-002, davinci-002, all
gpt-3.5-turbo and gpt-4 variants, and text-embedding-ada-002 map to
cl100k_base. -/
def specEncodingOfModel : OpenAIModel → TiktokenEncoding
  | .codeDavinci002 | .textDavinci002 | .textDavinci003 => .p50kBase
  | .ada | .babbage | .curie | .davinci
  | .textAda001 | .textBabbage001 | .textCurie001 => .r50kBase
  | _ => .cl100kBase

/-! ## Theorems -/

/-- C5: for every schema and every input value, `ZodSchema.validate`
returns exactly one of a tagged success carrying the validated data or a
tagged failure carrying an error description — never both (and, being a
total function into the tagged union, it never throws). -/
theorem validate_tagged_outcome (α : Type) (schema : ZodSchema α) (value : Json) :
    (∃ d, schema.validate value = .success d ∧ ∀ e, schema.validate value ≠ .failure e) ∨
    (∃ e, schema.validate value = .failure e ∧ ∀ d, schema.validate value ≠ .success d) := by
  cases schema.validate value with
  | success d =>
    exact .inl ⟨d, rfl, fun e he => ValidationOutcome.noConfusion he⟩
  | failure e =>
    exact .inr ⟨e, rfl, fun d hd => ValidationOutcome.noConfusion hd⟩

/-- C8: the instruction formatter emits a system message iff system text
is present, always one user message for the instruction, and an
additional user message iff auxiliary input is present, in the order
system, instruction, input. -/
theorem instruction_format_shape (p : InstructionPrompt) :
    mapInstructionPromptToOpenAIChatFormat p =
      (p.system.map fun s => OpenAIChatMessage.mk "system" s).toList ++
      [{ role := "user", content := p.instruction }] ++
      (p.input.map fun i => OpenAIChatMessage.mk "user" i).toList := by
  obtain ⟨sys, instr, inp⟩ := p
  cases sys <;> cases inp <;> rfl

/-- C10: `getTiktokenBPE` returns an encoding for every member of the
closed model-identifier union, never reaching the default (throw) branch,
and the model-to-encoding grouping is exactly the claimed one. -/
theorem tiktoken_covers_model_union :
    ∀ m : OpenAIModel, getTiktokenBPE m = some (specEncodingOfModel m) := by
  intro m
  cases m <;> rfl

/-- C9: a stream that closes after zero fragments yields an Assembled
Response with empty text and no tool calls, and signals no error. -/
theorem empty_stream_empty_response :
    assemble [] = .ok emptyState ∧
    (∀ i, respText (closeStream emptyState) i = "") ∧
    (∀ i id, respToolCall (closeStream emptyState) i id = none) :=
  ⟨rfl, fun _ => rfl, fun _ _ => rfl⟩

theorem chatFormatLoop_no_system (rest : ChatPrompt)
    (h : rest.any isSystemTurn = false) :
    ∀ i, chatFormatLoop i rest = .ok (rest.map turnToMessage) := by
  induction rest with
  | nil => intro i; rfl
  | cons t ts ih =>
    rw [List.any_cons, Bool.or_eq_false_iff] at h
    intro i
    cases t with
    | system s => simp [isSystemTurn] at h
    | user u => simp [chatFormatLoop, ih h.2, turnToMessage, Except.map]
    | ai a => simp [chatFormatLoop, ih h.2, turnToMessage, Except.map]

/-- C3: for every valid chat prompt (system turn absent or first), the
chat formatter maps turns 1:1 to provider messages in the original order,
translating the ai role to the provider's assistant role, with no merging
or reordering. -/
theorem chat_format_one_to_one (p : ChatPrompt) (h : validChatPrompt p = true) :
    mapChatPromptToOpenAIChatFormat p = .ok (p.map turnToMessage) := by
  cases p with
  | nil => rfl
  | cons first rest =>
    rw [validChatPrompt, Bool.not_eq_true'] at h
    have hval : validateChatPrompt (first :: rest) = .ok () := by
      simp [validateChatPrompt, h]
    rw [mapChatPromptToOpenAIChatFormat, hval]
    show chatFormatLoop 0 (first :: rest) = .ok ((first :: rest).map turnToMessage)
    cases first with
    | system s => simp [chatFormatLoop, chatFormatLoop_no_system rest h 1, turnToMessage, Except.map]
    | user u => simp [chatFormatLoop, chatFormatLoop_no_system rest h 1, turnToMessage, Except.map]
    | ai a => simp [chatFormatLoop, chatFormatLoop_no_system rest h 1, turnToMessage, Except.map]

/-- Witness for C3 on a concrete valid chat prompt. -/
theorem chat_format_one_to_one_witness :
    validChatPrompt [ChatTurn.system "s", ChatTurn.user "u", ChatTurn.ai "a"] = true ∧
    mapChatPromptToOpenAIChatFormat [ChatTurn.system "s", ChatTurn.user "u", ChatTurn.ai "a"] =
      .ok [{ role := "system", content := "s" }, { role := "user", content := "u" },
           { role := "assistant", content := "a" }] :=
  ⟨rfl, chat_format_one_to_one [ChatTurn.system "s", ChatTurn.user "u", ChatTurn.ai "a"] rfl⟩

/-- C4: a chat prompt with a system turn anywhere but the first position
fails with a `PromptStructureError`. -/
theorem misplaced_system_fails (p : ChatPrompt) (i : Nat) (h0 : 0 < i)
    (hlen : i < p.length) (hsys : isSystemTurn (p.get ⟨i, hlen⟩) = true) :
    mapChatPromptToOpenAIChatFormat p =
      .error (.promptStructure "system message must be the first message") := by
  cases p with
  | nil => exact absurd hlen (by simp)
  | cons first rest =>
    obtain ⟨j, rfl⟩ : ∃ j, i = j + 1 := ⟨i - 1, (Nat.succ_pred_eq_of_pos h0).symm⟩
    have hj : j < rest.length := by simpa using hlen
    have hget : (first :: rest).get ⟨j + 1, hlen⟩ = rest.get ⟨j, hj⟩ := rfl
    rw [hget] at hsys
    have hany : rest.any isSystemTurn = true :=
      List.any_eq_true.mpr ⟨rest.get ⟨j, hj⟩, List.get_mem rest j hj, hsys⟩
    rw [mapChatPromptToOpenAIChatFormat, validateChatPrompt]
    rw [hany]
    rfl

/-- Witness for C4 on the prompt `[user, system, user]`. -/
theorem misplaced_system_fails_witness :
    mapChatPromptToOpenAIChatFormat
        [ChatTurn.user "a", ChatTurn.system "b", ChatTurn.user "c"] =
      .error (.promptStructure "system message must be the first message") :=
  misplaced_system_fails [ChatTurn.user "a", ChatTurn.system "b", ChatTurn.user "c"] 1
    (by decide) (by decide) rfl

theorem generateStructureGo_fail (modelOutput : Nat → String) (schema : ZodSchema α) :
    ∀ remaining attempt, 0 < remaining →
      (∀ k, attempt ≤ k → k < attempt + remaining →
        (attemptOutcome schema (modelOutput k)).isFailure = true) →
      generateStructureGo modelOutput schema remaining attempt =
        (.error { valueText := modelOutput (attempt + remaining - 1),
                  cause := (attemptOutcome schema (modelOutput (attempt + remaining - 1))).errorText },
         attempt + remaining) := by
  intro remaining
  induction remaining with
  | zero => intro attempt h; exact absurd h (by omega)
  | succ r ih =>
    intro attempt _ hfail
    have hfirst := hfail attempt (Nat.le_refl _) (by omega)
    cases ho : attemptOutcome schema (modelOutput attempt) with
    | success v => rw [ho] at hfirst; exact absurd hfirst (by simp [ValidationOutcome.isFailure])
    | failure e =>
      rcases Nat.eq_zero_or_pos r with hr | hr
      · subst hr
        have harith : attempt + 1 - 1 = attempt := by omega
        rw [generateStructureGo, ho]
        simp [harith, ho, ValidationOutcome.errorText]
      · have harith : attempt + 1 + r = attempt + (r + 1) := by omega
        have hgo := ih (attempt + 1) hr (fun k hk1 hk2 => hfail k (by omega) (by omega))
        rw [harith] at hgo
        rw [generateStructureGo, ho]
        have hrne : ¬ r = 0 := by omega
        simp only [hrne, if_false, hgo]

/-- C2: when every attempt fails validation (parse or schema failure) and
`maxAttempts ≥ 1`, `generateStructure` fails with a
`StructureValidationError` carrying the last raw output and the last
validation error, after exactly `maxAttempts` model invocations — in
particular `maxAttempts = 1` performs zero retries. -/
theorem generate_structure_exhaustion (modelOutput : Nat → String)
    (schema : ZodSchema α) (maxAttempts : Nat) (hmax : 1 ≤ maxAttempts)
    (hfail : ∀ k, k < maxAttempts →
      (attemptOutcome schema (modelOutput k)).isFailure = true) :
    generateStructure modelOutput schema maxAttempts =
      .error { valueText := modelOutput (maxAttempts - 1),
               cause := (attemptOutcome schema (modelOutput (maxAttempts - 1))).errorText } ∧
    generateStructureAttemptCount modelOutput schema maxAttempts = maxAttempts := by
  have hgo := generateStructureGo_fail modelOutput schema maxAttempts 0 (by omega)
    (fun k _ hk2 => hfail k (by omega))
  rw [Nat.zero_add] at hgo
  exact ⟨by rw [generateStructure, hgo], by rw [generateStructureAttemptCount, hgo]⟩

/-- Witness for C2: `maxAttempts = 1` with a first attempt that is not
valid JSON fails with the `StructureValidationError` and one single model
invocation (zero retries). -/
theorem generate_structure_exhaustion_witness :
    generateStructure (fun _ => "not json") calcSchema 1 =
      .error { valueText := "not json",
               cause := (attemptOutcome calcSchema "not json").errorText } ∧
    generateStructureAttemptCount (fun _ => "not json") calcSchema 1 = 1 :=
  generate_structure_exhaustion (fun _ => "not json") calcSchema 1 (Nat.le_refl 1)
    (fun _ _ => rfl)

/-- C7: an error thrown by the tool's action is captured inside the Tool
Execution Result together with the elapsed duration, and the call
boundary still returns successfully — the action error is never thrown
across it. -/
theorem tool_error_captured (tool : Tool α β) (parameters : α)
    (startMs finishMs : Nat) (e : String)
    (herr : tool.execute parameters = .error e) :
    executeTool tool parameters startMs finishMs =
      .ok { tool := tool.name, parameters := parameters, output := .error e,
            durationMs := finishMs - startMs } := by
  rw [executeTool, executeToolRun, herr]

/-- A tool whose action always throws, used to witness C7. -/
def alwaysFailingTool : Tool CalcArgs Int :=
  { name := "failing",
    description := "a tool whose action always throws",
    inputSchema := calcSchema,
    execute := fun _ => .error "tool action failed" }

/-- Witness for C7 on a concrete failing tool execution. -/
theorem tool_error_captured_witness :
    executeTool alwaysFailingTool { a := 1, b := 2, operator := .add } 5 12 =
      .ok { tool := "failing", parameters := { a := 1, b := 2, operator := .add },
            output := .error "tool action failed", durationMs := 7 } :=
  tool_error_captured alwaysFailingTool { a := 1, b := 2, operator := .add } 5 12
    "tool action failed" rfl

/-- The model response used to refute C6: the model selects the
calculator tool and also produces accompanying text, which the
documentation says is allowed ("`text`: the generated text. Optional if a
tool was selected."). -/
def mixedToolResponse : ModelToolResponse :=
  .toolCall "calculator"
    (.obj [("a", .num 14), ("b", .num 12), ("operator", .str "*")])
    (some "Using the calculator.")

def mixedToolResult : ToolOrTextResult CalcArgs Int :=
  { tool := some "calculator",
    parameters := some { a := 14, b := 12, operator := .mul },
    result := some (.ok 168),
    text := some "Using the calculator." }

/-- C6 counterexample: a completed `useToolOrGenerateText` call can
return a result whose tool group is populated AND whose `text` is
non-null, contradicting the claim that a selected tool forces
`text = null` (never a mix). -/
theorem tool_or_text_mixed_counterexample :
    useToolOrGenerateText [calculator] mixedToolResponse 0 7 = .ok mixedToolResult ∧
    mixedToolResult.tool ≠ none ∧ mixedToolResult.text ≠ none :=
  ⟨rfl, by simp [mixedToolResult], by simp [mixedToolResult]⟩

/-- C6 amended: every completed `useToolOrGenerateText` call populates
exactly one of the two groups, except that `text` may accompany a
selected tool: either `tool`, `parameters` and `result` are all non-null
(tool selected, `text` optional), or `text` is non-null with `tool`,
`parameters` and `result` all null (plain text); never both groups
null. -/
theorem tool_or_text_groups (tools : List (Tool α β))
    (response : ModelToolResponse) (startMs finishMs : Nat)
    (r : ToolOrTextResult α β)
    (h : useToolOrGenerateText tools response startMs finishMs = .ok r) :
    (r.tool.isSome = true ∧ r.parameters.isSome = true ∧ r.result.isSome = true) ∨
    (r.text.isSome = true ∧ r.tool = none ∧ r.parameters = none ∧ r.result = none) := by
  cases response with
  | text content =>
    rw [useToolOrGenerateText] at h
    injection h with h
    subst h
    exact .inr ⟨rfl, rfl, rfl, rfl⟩
  | toolCall name rawParameters content =>
    rw [useToolOrGenerateText] at h
    cases hfind : tools.find? (fun t => t.name = name) with
    | none => rw [hfind] at h; exact Except.noConfusion h
    | some tool =>
      rw [hfind] at h
      dsimp only at h
      cases hval : tool.inputSchema.validate rawParameters with
      | failure e => rw [hval] at h; exact Except.noConfusion h
      | success parameters =>
        rw [hval] at h
        injection h with h
        subst h
        exact .inl ⟨rfl, rfl, rfl⟩

/-- Witness for C6 (amended) on a plain-text model response. -/
theorem tool_or_text_groups_witness :
    ((none : Option String).isSome = true ∧ (none : Option CalcArgs).isSome = true ∧
       (none : Option (Except String Int)).isSome = true) ∨
    ((some "hello" : Option String).isSome = true ∧ (none : Option String) = none ∧
       (none : Option CalcArgs) = none ∧ (none : Option (Except String Int)) = none) :=
  tool_or_text_groups [calculator] (.text "hello") 0 0
    { tool := none, parameters := none, result := none, text := some "hello" } rfl

theorem applyArgsDelta_args (id : String) (ad : Option String) (acc acc2 : ToolCallAcc)
    (h : applyArgsDelta id ad acc = .ok acc2) :
    acc2.args = acc.args ++ ad.getD "" := by
  cases ad with
  | none =>
    rw [applyArgsDelta] at h
    injection h with h
    subst h
    exact (String.append_empty _).symm
  | some a =>
    rw [applyArgsDelta] at h
    cases hn : acc.name with
    | none => rw [hn] at h; exact Except.noConfusion h
    | some n =>
      rw [hn] at h
      injection h with h
      subst h
      rfl

theorem applyToolDelta_args (id : String) (nd ad : Option String)
    (cur : Option ToolCallAcc) (acc2 : ToolCallAcc)
    (h : applyToolDelta id nd ad cur = .ok acc2) :
    acc2.args = (cur.getD { name := none, args := "" }).args ++ ad.getD "" := by
  cases nd with
  | none =>
    rw [applyToolDelta] at h
    exact applyArgsDelta_args id ad _ acc2 h
  | some n =>
    rw [applyToolDelta] at h
    cases hn : (cur.getD { name := none, args := "" }).name with
    | some m => rw [hn] at h; exact Except.noConfusion h
    | none =>
      rw [hn] at h
      dsimp only at h
      exact applyArgsDelta_args id ad
        { name := some n, args := (cur.getD { name := none, args := "" }).args } acc2 h

theorem stateArgs_update_eq (st : AssemblerState) (c : ChoiceAcc) (i : Nat)
    (id : String) : stateArgs (updateMap st i c) i id = choiceArgs c id := by
  simp [stateArgs, updateMap]

theorem stateArgs_update_ne (st : AssemblerState) (c : ChoiceAcc) (i j : Nat)
    (id : String) (h : j ≠ i) :
    stateArgs (updateMap st i c) j id = stateArgs st j id := by
  simp [stateArgs, updateMap, h]

theorem fragArgText_here (i : Nat) (id : String) (p : FragmentPayload) :
    fragArgText i id { index := i, payload := p } =
      match p with
      | .toolCallDelta id2 _ argsDelta => if id2 = id then argsDelta.getD "" else ""
      | _ => "" := by
  rw [fragArgText]
  exact if_pos rfl

theorem fragArgText_elsewhere (i j : Nat) (id : String) (p : FragmentPayload)
    (h : j ≠ i) : fragArgText i id { index := j, payload := p } = "" := by
  rw [fragArgText]
  exact if_neg h

theorem choiceArgs_set_tool_eq (c : ChoiceAcc) (t : Option String)
    (id : String) (acc : ToolCallAcc) :
    choiceArgs { text := t, toolCalls := updateMap c.toolCalls id acc } id =
      acc.args := by
  simp [choiceArgs, updateMap]

theorem choiceArgs_set_tool_ne (c : ChoiceAcc) (t : Option String)
    (id id2 : String) (acc : ToolCallAcc) (h : id ≠ id2) :
    choiceArgs { text := t, toolCalls := updateMap c.toolCalls id2 acc } id =
      choiceArgs c id := by
  simp [choiceArgs, updateMap, h]

theorem processFragment_args (st : AssemblerState) (f : Fragment)
    (st2 : AssemblerState) (i : Nat) (id : String)
    (h : processFragment st f = .ok st2) :
    stateArgs st2 i id = stateArgs st i id ++ fragArgText i id f := by
  obtain ⟨fidx, payload⟩ := f
  cases payload with
  | textDelta content =>
    rw [processFragment] at h
    dsimp only at h
    injection h with h
    subst h
    by_cases hi : i = fidx
    · subst hi
      rw [stateArgs_update_eq, fragArgText_here]
      show choiceArgs ((st i).getD emptyChoice) id = stateArgs st i id ++ ""
      rw [String.append_empty]
      rfl
    · rw [stateArgs_update_ne st _ fidx i id hi,
        fragArgText_elsewhere i fidx id _ (fun hh => hi hh.symm),
        String.append_empty]
  | toolCallDelta id2 nd ad =>
    rw [processFragment] at h
    dsimp only at h
    cases happ : applyToolDelta id2 nd ad (((st fidx).getD emptyChoice).toolCalls id2) with
    | error e =>
      rw [happ] at h
      exact Except.noConfusion h
    | ok acc2 =>
      rw [happ] at h
      dsimp only [Except.map] at h
      injection h with h
      subst h
      by_cases hi : i = fidx
      · subst hi
        rw [stateArgs_update_eq, fragArgText_here]
        by_cases hid : id = id2
        · subst hid
          rw [choiceArgs_set_tool_eq ((st i).getD emptyChoice) _ id acc2]
          rw [applyToolDelta_args id nd ad (((st i).getD emptyChoice).toolCalls id) acc2 happ]
          dsimp only
          rw [if_pos rfl]
          rw [stateArgs, choiceArgs]
          cases ((st i).getD emptyChoice).toolCalls id with
          | none => rfl
          | some acc => rfl
        · rw [choiceArgs_set_tool_ne ((st i).getD emptyChoice) _ id id2 acc2 hid]
          dsimp only
          rw [if_neg (fun hh : id2 = id => hid hh.symm), String.append_empty]
          rfl
      · rw [stateArgs_update_ne st _ fidx i id hi,
          fragArgText_elsewhere i fidx id _ (fun hh => hi hh.symm),
          String.append_empty]

theorem assembleFrom_args (i : Nat) (id : String) :
    ∀ (fs : List Fragment) (st st2 : AssemblerState),
      assembleFrom st fs = .ok st2 →
      stateArgs st2 i id = stateArgs st i id ++ argConcat i id fs := by
  intro fs
  induction fs with
  | nil =>
    intro st st2 h
    injection h with h
    subst h
    exact (String.append_empty _).symm
  | cons f fs ih =>
    intro st st2 h
    rw [assembleFrom] at h
    cases hp : processFragment st f with
    | error e =>
      rw [hp] at h
      exact Except.noConfusion h
    | ok stm =>
      rw [hp] at h
      dsimp only [Except.bind] at h
      rw [ih stm st2 h, processFragment_args st f stm i id hp, argConcat,
        String.append_assoc]

/-- C1: for every fragment sequence that the assembler accepts without a
protocol error, and every tool call whose argument text, concatenated in
arrival order, parses as JSON, the Assembled Response produced at
`Closed` exposes exactly that JSON value as the tool call's parsed
arguments (round-trip law). -/
theorem assembler_roundtrip (fs : List Fragment) (st : AssemblerState) (i : Nat)
    (id : String) (v : Json) (hok : assemble fs = .ok st)
    (hjson : Json.parse (argConcat i id fs) = some v) :
    respParsedArgs (closeStream st) i id = some (.ok v) := by
  have hargs : stateArgs st i id = argConcat i id fs := by
    have hfold := assembleFrom_args i id fs emptyState st hok
    rw [hfold]
    rfl
  have hne : argConcat i id fs ≠ "" := by
    intro hempty
    rw [hempty, json_parse_empty] at hjson
    exact Option.noConfusion hjson
  cases hst : st i with
  | none =>
    exact absurd hargs (by rw [stateArgs, hst]; exact fun hh => hne hh.symm)
  | some c =>
    cases htc : c.toolCalls id with
    | none =>
      refine absurd hargs ?_
      rw [stateArgs, hst, Option.getD_some, choiceArgs, htc]
      exact fun hh => hne hh.symm
    | some acc =>
      have hacc : acc.args = argConcat i id fs := by
        rw [← hargs, stateArgs, hst, Option.getD_some, choiceArgs, htc]
      rw [respParsedArgs, respToolCall, closeStream, hst, Option.map_some',
        finalizeChoice]
      dsimp only
      rw [htc, Option.map_some', Option.map_some', finalizeToolCall, hacc, hjson]

/-- Concrete fragment stream used to witness C1: one tool call whose
arguments arrive split across two fragments. -/
def wFragments : List Fragment :=
  [ { index := 0, payload := .toolCallDelta "call1" (some "calculator") none },
    { index := 0, payload := .toolCallDelta "call1" none (some "\x7b\"a\":14,") },
    { index := 0, payload := .toolCallDelta "call1" none (some "\"b\":12\x7d") } ]

def wAssembled : AssemblerState :=
  match assemble wFragments with
  | .ok st => st
  | .error _ => emptyState

/-- Witness for C1 on `wFragments`: the concatenated argument text is
the JSON object with a = 14 and b = 12, and the closed response exposes
exactly that parsed value. -/
theorem assembler_roundtrip_witness :
    respParsedArgs (closeStream wAssembled) 0 "call1" =
      some (.ok (.obj [("a", .num 14), ("b", .num 12)])) :=
  assembler_roundtrip wFragments wAssembled 0 "call1"
    (.obj [("a", .num 14), ("b", .num 12)]) rfl rfl

end ModelFusion
